import Mathlib

/-!
Verification development for the Kakao idle-RPG bot backend (main.py).

The single source file implements a webhook handler over a per-user SQLite
record.  We embed the game logic shallowly: the user record becomes a Lean
structure (database integers become `ℤ`, nullable TEXT columns become
`Option String`), every random draw consumed by one request is passed in
explicitly through a `Rand` structure, and the handler's chain of early
returns becomes an `Option`-valued pipeline (`globalStep?`, then
`contStep?`, then `repromptStep`).  Python floats in the level-up roll are
modelled as exact rationals; Python `int(...)` on a token is modelled for
ASCII numerals with an optional sign; `str.upper` is modelled characterwise
(Korean text is unchanged by upper-casing in both systems).  The database
columns `kakao_user_id` and `created_at` are write-once opaque values never
read by any handler branch, so they are omitted from the record.
-/

namespace KakaoIdle

/-- Stat caps, from the constants block of main.py. -/
def HP_CAP : ℤ := 999

/-- Cap for ATK. -/
def ATK_CAP : ℤ := 99

/-- Cap for INT. -/
def INT_CAP : ℤ := 99

/-- Cap for SPD. -/
def SPD_CAP : ℤ := 99

/-- Cap for LUK. -/
def LUK_CAP : ℤ := 999

/-- Cap for level. -/
def LEVEL_CAP : ℤ := 99

/-- Function clamp from main.py. -/
def clamp (x lo hi : ℤ) : ℤ := if x < lo then lo else if x > hi then hi else x

/-- Python str.strip modelled as trimming whitespace on both ends. -/
def pyStrip (s : String) : String :=
  (((s.toList.dropWhile Char.isWhitespace).reverse.dropWhile Char.isWhitespace).reverse).asString

/-- Python str.upper modelled characterwise. -/
def pyUpper (s : String) : String := (s.toList.map Char.toUpper).asString

/-- Test whether the first list begins with the second. -/
def listStarts : List Char → List Char → Bool
  | _, [] => true
  | [], _ :: _ => false
  | c :: cs, d :: ds => c = d && listStarts cs ds

/-- Python str.startswith. -/
def strStarts (s pat : String) : Bool := listStarts s.toList pat.toList

/-- Accumulating word splitter over characters. -/
def wordsRec : List Char → List Char → List (List Char)
  | [], acc => if acc = [] then [] else [acc.reverse]
  | c :: cs, acc =>
    if Char.isWhitespace c then
      if acc = [] then wordsRec cs [] else acc.reverse :: wordsRec cs []
    else wordsRec cs (c :: acc)

/-- Python str.split with no separator: split on whitespace runs, dropping
empty pieces. -/
def pySplit (s : String) : List String :=
  (wordsRec s.toList []).map List.asString

/-- Python msg.split with separator a single space and maxsplit 1, taking
component 1: everything after the first space character. -/
def splitRest (s : String) : String :=
  (((s.toList).dropWhile (fun c => c ≠ ' ')).drop 1).asString

/-- Value of an ASCII digit string. -/
def digitsToInt (cs : List Char) : ℤ :=
  cs.foldl (fun acc c => acc * 10 + ((c.toNat : ℤ) - 48)) 0

/-- Python int on a token, modelled for ASCII numerals with an optional
sign; any other shape fails (the source turns the failure into -1). -/
def pyInt? (s : String) : Option ℤ :=
  match s.toList with
  | [] => none
  | c :: rest =>
    if c = '-' then
      if rest ≠ [] ∧ rest.all Char.isDigit then some (-(digitsToInt rest)) else none
    else if c = '+' then
      if rest ≠ [] ∧ rest.all Char.isDigit then some (digitsToInt rest) else none
    else
      if (c :: rest).all Char.isDigit then some (digitsToInt (c :: rest)) else none

/-- Function job_main_stat from main.py: dictionary get with default "atk". -/
def job_main_stat (job : Option String) : String :=
  match job with
  | some "WARRIOR" => "atk"
  | some "MAGE" => "int_stat"
  | some "NINJA" => "spd"
  | _ => "atk"

/-- Function combat_power from main.py. -/
def combat_power (hp atk int_stat spd : ℤ) (job : Option String) : ℤ :=
  let main := job_main_stat job
  if main = "atk" then hp + atk * 3 + int_stat + spd
  else if main = "int_stat" then hp + int_stat * 3 + atk + spd
  else hp + spd * 3 + atk + int_stat

/-- Function level_up_rolls from main.py.  The single uniform draw
`random.random()` is passed in as the exact rational `r`; the float
thresholds are modelled as exact rationals. -/
def level_up_rolls (difficulty : String) (luk : ℤ) (r : ℚ) : ℤ :=
  let bonus : ℚ := (luk : ℚ) / 10000
  if difficulty = "쉬움" then
    (if r < 30/100 + bonus then 1 else 0)
  else if difficulty = "보통" then
    (if r < 10/100 + bonus then 2
     else if r < (10/100 + bonus) + (40/100 + bonus) then 1 else 0)
  else if difficulty = "어려움" then
    (if r < 30/100 + bonus then 2
     else if r < (30/100 + bonus) + (70/100 + bonus) then 1 else 0)
  else 0

/-- Function fatigue_cost from main.py: dictionary get with default 999. -/
def fatigue_cost (difficulty : String) : ℤ :=
  if difficulty = "쉬움" then 1
  else if difficulty = "보통" then 2
  else if difficulty = "어려움" then 3
  else 999

/-- One user row of the users table, as loaded at the top of the webhook
handler.  Integers are `ℤ` (SQLite integers are unbounded), nullable TEXT
columns are `Option String`. -/
structure UserRecord where
  level : ℤ
  gold : ℤ
  weapon_level : ℤ
  job : Option String
  stat_points : ℤ
  hp : ℤ
  atk : ℤ
  int_stat : ℤ
  spd : ℤ
  luk : ℤ
  fatigue : ℤ
  last_attendance : Option String
  pending : Option String
  deriving DecidableEq, Repr

/-- The defaults inserted by get_or_create_user for a new user. -/
def defaultUser : UserRecord :=
  { level := 1, gold := 100, weapon_level := 0, job := none, stat_points := 0
    hp := 1, atk := 1, int_stat := 1, spd := 1, luk := 1
    fatigue := 0, last_attendance := none, pending := none }

/-- The random draws one webhook request may consume: the `random.random()`
value for the level-up roll, the `randint(1,100)` enhancement roll, the
stream of `randint(1,10)` stat-point draws (at most two are consumed), and
the `randint(0,5)` gold bonus. -/
structure Rand where
  r : ℚ
  enhRoll : ℤ
  pointDraws : List ℤ
  goldRoll : ℤ
  deriving Repr

/-- The ranges Python's random primitives guarantee for the draws. -/
def ValidRand (rnd : Rand) : Prop :=
  0 ≤ rnd.r ∧ rnd.r < 1 ∧
  1 ≤ rnd.enhRoll ∧ rnd.enhRoll ≤ 100 ∧
  (∀ d ∈ rnd.pointDraws, 1 ≤ d ∧ d ≤ 10) ∧ 2 ≤ rnd.pointDraws.length ∧
  0 ≤ rnd.goldRoll ∧ rnd.goldRoll ≤ 5

instance : DecidablePred ValidRand := fun rnd => by
  unfold ValidRand
  infer_instance

/-- Response descriptor: one constructor per distinct reply the webhook
handler can produce, carrying the numeric payloads interpolated into the
reply text. -/
inductive Response where
  | helpText
  | cancelDone
  | myInfo (power : ℤ)
  | statsView
  | noStatPoints
  | statAllocPrompt
  | attendanceAlready
  | attendanceDone (fatigue : ℤ)
  | enhanceNoGold (cost gold : ℤ)
  | enhanceSuccess (weaponLevel rate cost gold : ℤ)
  | enhanceFail (rate cost gold : ℤ)
  | jobAlreadySet
  | jobPrompt
  | adventurePrompt
  | jobBadChoice
  | jobSet (choice : String)
  | statAmountTooSmall
  | statNotEnough (points : ℤ)
  | statApplied (stat : String) (used now remaining : ℤ)
  | advBadDifficulty
  | advNoFatigue (cost fatigue : ℤ)
  | advDone (difficulty : String) (cost fatigue gainGold gold realInc level gainedPoints statPoints : ℤ)
  | advReprompt
  | jobReprompt
  | statReprompt
  | unknown
  deriving DecidableEq, Repr

/-- Help-command aliases. -/
def helpTokens : List String := ["/도움", "도움", "help", "/help"]

/-- Cancel-command aliases. -/
def cancelTokens : List String := ["/취소", "취소", "cancel", "/cancel"]

/-- Show-info aliases. -/
def infoTokens : List String := ["/내정보", "내정보", "/me"]

/-- Show-stats aliases. -/
def statViewTokens : List String := ["/스탯", "스탯"]

/-- Request-stat-allocation aliases. -/
def statUseTokens : List String := ["스탯 사용", "/스탯사용"]

/-- Attendance aliases. -/
def attendTokens : List String := ["/출석", "출석", "출석체크", "출석 체크"]

/-- Enhance aliases. -/
def enhanceTokens : List String := ["/강화", "강화"]

/-- Request-job-selection aliases. -/
def jobTokens : List String := ["/직업", "직업"]

/-- Request-adventure-selection aliases. -/
def advTokens : List String := ["/모험", "모험"]

/-- Section 0 of the webhook handler: the chain of global-command early
returns (help, cancel, my-info, stats view, stat-use, attendance, enhance,
job request, adventure request).  Returns none when no global command
matched, mirroring fall-through past the chain. -/
def globalStep? (u : UserRecord) (msg today : String) (rnd : Rand) :
    Option (UserRecord × Response) :=
  if msg ∈ helpTokens then
    some (u, .helpText)
  else if msg ∈ cancelTokens then
    some ({ u with pending := none }, .cancelDone)
  else if msg ∈ infoTokens then
    some (u, .myInfo (combat_power u.hp u.atk u.int_stat u.spd u.job))
  else if msg ∈ statViewTokens then
    some (u, .statsView)
  else if msg ∈ statUseTokens then
    if u.stat_points ≤ 0 then some (u, .noStatPoints)
    else some ({ u with pending := some "STAT_ALLOC" }, .statAllocPrompt)
  else if msg ∈ attendTokens then
    if u.last_attendance = some today then some (u, .attendanceAlready)
    else some ({ u with fatigue := u.fatigue + 30, last_attendance := some today },
               .attendanceDone (u.fatigue + 30))
  else if msg ∈ enhanceTokens then
    let cost := 50 + u.weapon_level * 25
    if u.gold < cost then some (u, .enhanceNoGold cost u.gold)
    else
      let success_rate := max 10 (70 - u.weapon_level * 10)
      let gold := u.gold - cost
      if rnd.enhRoll ≤ success_rate then
        some ({ u with gold := gold, weapon_level := u.weapon_level + 1 },
              .enhanceSuccess (u.weapon_level + 1) success_rate cost gold)
      else
        some ({ u with gold := gold }, .enhanceFail success_rate cost gold)
  else if msg ∈ jobTokens then
    if u.job ≠ none then some (u, .jobAlreadySet)
    else some ({ u with pending := some "JOB_SELECT" }, .jobPrompt)
  else if msg ∈ advTokens then
    some ({ u with pending := some "ADVENTURE_SELECT" }, .adventurePrompt)
  else none

/-- Job-label dictionary from the JOB_SELECT continuation. -/
def jobMapping (choice : String) : Option String :=
  if choice = "전사" then some "WARRIOR"
  else if choice = "마법사" then some "MAGE"
  else if choice = "닌자" then some "NINJA"
  else none

/-- Section 1 of the webhook handler: the pending-continuation chain.
Returns none exactly where the source falls through to the guidance
section (its comments at the end of each pending branch).  Python's
`parts[0]`/`parts[1]` accesses, guarded by the length test, are rendered
with `List.getD`; the job dictionary membership test plus lookup is
rendered through `jobMapping`. -/
def contStep? (u : UserRecord) (msg : String) (rnd : Rand) :
    Option (UserRecord × Response) :=
  if u.pending = some "JOB_SELECT" then
    if u.job ≠ none then
      some ({ u with pending := none }, .jobAlreadySet)
    else if strStarts msg "직업 " then
      let choice := pyStrip (splitRest msg)
      if jobMapping choice = none then some (u, .jobBadChoice)
      else
        some ({ u with pending := none, job := jobMapping choice }, .jobSet choice)
    else none
  else if u.pending = some "STAT_ALLOC" then
    let parts := pySplit (pyUpper msg)
    if parts.length = 2 ∧ parts.getD 0 "" ∈ ["HP", "ATK", "INT", "SPD", "LUK"] then
      let s := parts.getD 0 ""
      let amount := (pyInt? (parts.getD 1 "")).getD (-1)
      if amount ≤ 0 then some (u, .statAmountTooSmall)
      else if amount > u.stat_points then some (u, .statNotEnough u.stat_points)
      else if s = "HP" then
        let nv := clamp (u.hp + amount) 1 HP_CAP
        let used := nv - u.hp
        some ({ u with hp := nv, stat_points := u.stat_points - used, pending := none },
              .statApplied "HP" used nv (u.stat_points - used))
      else if s = "ATK" then
        let nv := clamp (u.atk + amount) 1 ATK_CAP
        let used := nv - u.atk
        some ({ u with atk := nv, stat_points := u.stat_points - used, pending := none },
              .statApplied "ATK" used nv (u.stat_points - used))
      else if s = "INT" then
        let nv := clamp (u.int_stat + amount) 1 INT_CAP
        let used := nv - u.int_stat
        some ({ u with int_stat := nv, stat_points := u.stat_points - used, pending := none },
              .statApplied "INT" used nv (u.stat_points - used))
      else if s = "SPD" then
        let nv := clamp (u.spd + amount) 1 SPD_CAP
        let used := nv - u.spd
        some ({ u with spd := nv, stat_points := u.stat_points - used, pending := none },
              .statApplied "SPD" used nv (u.stat_points - used))
      else if s = "LUK" then
        let nv := clamp (u.luk + amount) 1 LUK_CAP
        let used := nv - u.luk
        some ({ u with luk := nv, stat_points := u.stat_points - used, pending := none },
              .statApplied "LUK" used nv (u.stat_points - used))
      else none
    else none
  else if u.pending = some "ADVENTURE_SELECT" then
    if strStarts msg "모험 " then
      let difficulty := pyStrip (splitRest msg)
      if difficulty ∉ ["쉬움", "보통", "어려움"] then
        some (u, .advBadDifficulty)
      else
        let cost := fatigue_cost difficulty
        if u.fatigue < cost then some (u, .advNoFatigue cost u.fatigue)
        else
          let fatigue := u.fatigue - cost
          let inc := level_up_rolls difficulty u.luk rnd.r
          let real_inc := if inc > 0 then min inc (LEVEL_CAP - u.level) else 0
          let level := u.level + real_inc
          let gained := if inc > 0 then (rnd.pointDraws.take real_inc.toNat).sum else 0
          let stat_points := u.stat_points + gained
          let base_gold : ℤ :=
            if difficulty = "쉬움" then 10 else if difficulty = "보통" then 20 else 35
          let gain_gold := base_gold + rnd.goldRoll
          let gold := u.gold + gain_gold
          some ({ u with level := level, gold := gold, stat_points := stat_points,
                         fatigue := fatigue, pending := none },
                .advDone difficulty cost fatigue gain_gold gold real_inc level gained stat_points)
    else none
  else none

/-- Section 2 of the webhook handler: the pending-specific guidance
replies, then the unknown-command fallback.  Never mutates the record. -/
def repromptStep (u : UserRecord) : UserRecord × Response :=
  if u.pending = some "ADVENTURE_SELECT" then (u, .advReprompt)
  else if u.pending = some "JOB_SELECT" then (u, .jobReprompt)
  else if u.pending = some "STAT_ALLOC" then (u, .statReprompt)
  else (u, .unknown)

/-- The webhook body after the utterance has been stripped: first the
global-command chain, then the pending continuation, then the guidance
fallback — matching the early-return order of the source. -/
def dispatch (u : UserRecord) (msg today : String) (rnd : Rand) :
    UserRecord × Response :=
  match globalStep? u msg today rnd with
  | some res => res
  | none =>
    match contStep? u msg rnd with
    | some res => res
    | none => repromptStep u

/-- The webhook handler on one loaded user record: strips the utterance
(line `msg = body[...]["utterance"].strip()`) and dispatches.  The first
component of the result is the record as persisted after the request. -/
def webhook (u : UserRecord) (utter today : String) (rnd : Rand) :
    UserRecord × Response :=
  dispatch u (pyStrip utter) today rnd

/-- All tokens the global-command chain recognises, in source order. -/
def globalTokens : List String :=
  helpTokens ++ cancelTokens ++ infoTokens ++ statViewTokens ++ statUseTokens ++
  attendTokens ++ enhanceTokens ++ jobTokens ++ advTokens

/-- Records reachable from the new-user defaults by webhook requests whose
random draws are in the ranges Python guarantees. -/
inductive Reachable : UserRecord → Prop where
  | init : Reachable defaultUser
  | step {u : UserRecord} (utter today : String) (rnd : Rand) :
      Reachable u → ValidRand rnd → Reachable (webhook u utter today rnd).1

/-- The record invariant maintained by every webhook request: field bounds,
the four-valued pending state, the three-valued job column, and the fact
that a JOB_SELECT continuation is only ever pending while the job is unset. -/
def Inv (u : UserRecord) : Prop :=
  1 ≤ u.level ∧ u.level ≤ 99 ∧
  0 ≤ u.gold ∧ 0 ≤ u.weapon_level ∧ 0 ≤ u.stat_points ∧ 0 ≤ u.fatigue ∧
  1 ≤ u.hp ∧ u.hp ≤ 999 ∧
  1 ≤ u.atk ∧ u.atk ≤ 99 ∧
  1 ≤ u.int_stat ∧ u.int_stat ≤ 99 ∧
  1 ≤ u.spd ∧ u.spd ≤ 99 ∧
  1 ≤ u.luk ∧ u.luk ≤ 999 ∧
  (u.pending = none ∨ u.pending = some "JOB_SELECT" ∨
   u.pending = some "STAT_ALLOC" ∨ u.pending = some "ADVENTURE_SELECT") ∧
  (u.job = none ∨ u.job = some "WARRIOR" ∨ u.job = some "MAGE" ∨ u.job = some "NINJA") ∧
  (u.pending = some "JOB_SELECT" → u.job = none)

/-- Difficulty as named in the specification. -/
inductive Difficulty where
  | easy
  | normal
  | hard
  deriving DecidableEq, Repr

/-- The Korean command token the source uses for each difficulty. -/
def diffToken : Difficulty → String
  | .easy => "쉬움"
  | .normal => "보통"
  | .hard => "어려움"

/-- Level-up outcome exactly as the specification words it: one uniform
draw r, bonus = luk/10000, the +2 threshold checked before the +1
threshold, and the +1 threshold cumulative on top of the +2 one. -/
def levelUpRollSpec (d : Difficulty) (luk : ℤ) (r : ℚ) : ℤ :=
  let bonus : ℚ := (luk : ℚ) / 10000
  match d with
  | .easy =>
    let p1 := 30/100 + bonus
    if r < p1 then 1 else 0
  | .normal =>
    let p2 := 10/100 + bonus
    let p1 := 40/100 + bonus
    if r < p2 then 2 else if r < p2 + p1 then 1 else 0
  | .hard =>
    let p2 := 30/100 + bonus
    let p1 := 70/100 + bonus
    if r < p2 then 2 else if r < p2 + p1 then 1 else 0

/-- Cap of each allocatable stat, keyed by its uppercase command token. -/
def statCap (s : String) : ℤ :=
  if s = "HP" then HP_CAP else if s = "ATK" then ATK_CAP else if s = "INT" then INT_CAP
  else if s = "SPD" then SPD_CAP else if s = "LUK" then LUK_CAP else 0

/-- Current value of an allocatable stat. -/
def statVal (u : UserRecord) (s : String) : ℤ :=
  if s = "HP" then u.hp else if s = "ATK" then u.atk else if s = "INT" then u.int_stat
  else if s = "SPD" then u.spd else if s = "LUK" then u.luk else u.hp

/-- The record with one allocatable stat replaced. -/
def setStatVal (u : UserRecord) (s : String) (v : ℤ) : UserRecord :=
  if s = "HP" then { u with hp := v } else if s = "ATK" then { u with atk := v }
  else if s = "INT" then { u with int_stat := v } else if s = "SPD" then { u with spd := v }
  else if s = "LUK" then { u with luk := v } else u

/-! Helper lemmas about the pure game functions and the dispatch pipeline. -/

lemma clamp_eq_min (x lo hi : ℤ) (h : lo ≤ x) : clamp x lo hi = min x hi := by
  unfold clamp
  split_ifs <;> omega

lemma level_up_rolls_cases (difficulty : String) (luk : ℤ) (r : ℚ) :
    level_up_rolls difficulty luk r = 0 ∨ level_up_rolls difficulty luk r = 1 ∨
    level_up_rolls difficulty luk r = 2 := by
  simp only [level_up_rolls]
  split_ifs <;> omega

lemma fatigue_cost_pos (difficulty : String) : 1 ≤ fatigue_cost difficulty := by
  unfold fatigue_cost
  split_ifs <;> omega

lemma take_sum_nonneg (l : List ℤ) (k : ℕ) (h : ∀ d ∈ l, 1 ≤ d ∧ d ≤ 10) :
    0 ≤ (l.take k).sum := by
  apply List.sum_nonneg
  intro x hx
  exact le_trans (by omega) (h x (List.take_subset k l hx)).1

lemma globalStep?_eq_none (u : UserRecord) (msg today : String) (rnd : Rand)
    (h : msg ∉ globalTokens) : globalStep? u msg today rnd = none := by
  simp only [globalTokens, List.mem_append, not_or] at h
  obtain ⟨⟨⟨⟨⟨⟨⟨⟨h1, h2⟩, h3⟩, h4⟩, h5⟩, h6⟩, h7⟩, h8⟩, h9⟩ := h
  unfold globalStep?
  rw [if_neg h1, if_neg h2, if_neg h3, if_neg h4, if_neg h5, if_neg h6, if_neg h7,
      if_neg h8, if_neg h9]

lemma globalStep?_ne_none (u : UserRecord) (msg today : String) (rnd : Rand)
    (h : msg ∈ globalTokens) : globalStep? u msg today rnd ≠ none := by
  simp only [globalTokens, List.mem_append] at h
  unfold globalStep?
  by_cases h1 : msg ∈ helpTokens
  · rw [if_pos h1]; simp
  rw [if_neg h1]
  by_cases h2 : msg ∈ cancelTokens
  · rw [if_pos h2]; simp
  rw [if_neg h2]
  by_cases h3 : msg ∈ infoTokens
  · rw [if_pos h3]; simp
  rw [if_neg h3]
  by_cases h4 : msg ∈ statViewTokens
  · rw [if_pos h4]; simp
  rw [if_neg h4]
  by_cases h5 : msg ∈ statUseTokens
  · rw [if_pos h5]; split_ifs <;> simp
  rw [if_neg h5]
  by_cases h6 : msg ∈ attendTokens
  · rw [if_pos h6]; split_ifs <;> simp
  rw [if_neg h6]
  by_cases h7 : msg ∈ enhanceTokens
  · rw [if_pos h7]; dsimp only; split_ifs <;> simp
  rw [if_neg h7]
  by_cases h8 : msg ∈ jobTokens
  · rw [if_pos h8]; split_ifs <;> simp
  rw [if_neg h8]
  by_cases h9 : msg ∈ advTokens
  · rw [if_pos h9]; simp
  tauto

lemma dispatch_of_global_none (u : UserRecord) (msg today : String) (rnd : Rand)
    (h : globalStep? u msg today rnd = none) :
    dispatch u msg today rnd =
      (match contStep? u msg rnd with
       | some res => res
       | none => repromptStep u) := by
  unfold dispatch
  rw [h]

lemma clamp_stat_bounds (v amt cap : ℤ) (hv1 : 1 ≤ v) (hv2 : v ≤ cap) (ham : 1 ≤ amt) :
    1 ≤ clamp (v + amt) 1 cap ∧ clamp (v + amt) 1 cap ≤ cap ∧
    clamp (v + amt) 1 cap - v ≤ amt ∧ v ≤ clamp (v + amt) 1 cap := by
  unfold clamp
  split_ifs <;> omega

lemma jobMapping_cases (choice : String) :
    jobMapping choice = none ∨ jobMapping choice = some "WARRIOR" ∨
    jobMapping choice = some "MAGE" ∨ jobMapping choice = some "NINJA" := by
  unfold jobMapping
  split_ifs <;> simp

lemma Inv.setPending (u : UserRecord) (hI : Inv u) (v : Option String)
    (hv : v = none ∨ v = some "STAT_ALLOC" ∨ v = some "ADVENTURE_SELECT") :
    Inv { u with pending := v } := by
  obtain ⟨hl1, hl2, hg, hw, hsp, hf, hhp1, hhp2, ha1, ha2, hi1, hi2, hs1, hs2, hk1, hk2,
    hpd, hjd, hpj⟩ := hI
  unfold Inv
  dsimp only
  refine ⟨hl1, hl2, hg, hw, hsp, hf, hhp1, hhp2, ha1, ha2, hi1, hi2, hs1, hs2, hk1, hk2,
    by tauto, hjd, ?_⟩
  rcases hv with rfl | rfl | rfl <;> simp

lemma Inv.jobRequest (u : UserRecord) (hI : Inv u) (hj : u.job = none) :
    Inv { u with pending := some "JOB_SELECT" } := by
  obtain ⟨hl1, hl2, hg, hw, hsp, hf, hhp1, hhp2, ha1, ha2, hi1, hi2, hs1, hs2, hk1, hk2,
    hpd, hjd, hpj⟩ := hI
  unfold Inv
  dsimp only
  exact ⟨hl1, hl2, hg, hw, hsp, hf, hhp1, hhp2, ha1, ha2, hi1, hi2, hs1, hs2, hk1, hk2,
    by tauto, hjd, fun _ => hj⟩

lemma Inv.attend (u : UserRecord) (hI : Inv u) (t : String) :
    Inv { u with fatigue := u.fatigue + 30, last_attendance := some t } := by
  obtain ⟨hl1, hl2, hg, hw, hsp, hf, hhp1, hhp2, ha1, ha2, hi1, hi2, hs1, hs2, hk1, hk2,
    hpd, hjd, hpj⟩ := hI
  unfold Inv
  dsimp only
  exact ⟨hl1, hl2, hg, hw, hsp, by omega, hhp1, hhp2, ha1, ha2, hi1, hi2, hs1, hs2, hk1, hk2,
    hpd, hjd, hpj⟩

lemma Inv.goldWeapon (u : UserRecord) (hI : Inv u) (g wl : ℤ) (hg2 : 0 ≤ g) (hw2 : 0 ≤ wl) :
    Inv { u with gold := g, weapon_level := wl } := by
  obtain ⟨hl1, hl2, hg, hw, hsp, hf, hhp1, hhp2, ha1, ha2, hi1, hi2, hs1, hs2, hk1, hk2,
    hpd, hjd, hpj⟩ := hI
  unfold Inv
  dsimp only
  exact ⟨hl1, hl2, hg2, hw2, hsp, hf, hhp1, hhp2, ha1, ha2, hi1, hi2, hs1, hs2, hk1, hk2,
    hpd, hjd, hpj⟩

lemma Inv.setJob (u : UserRecord) (hI : Inv u) (j : Option String)
    (hj : j = some "WARRIOR" ∨ j = some "MAGE" ∨ j = some "NINJA") :
    Inv { u with pending := none, job := j } := by
  obtain ⟨hl1, hl2, hg, hw, hsp, hf, hhp1, hhp2, ha1, ha2, hi1, hi2, hs1, hs2, hk1, hk2,
    hpd, hjd, hpj⟩ := hI
  unfold Inv
  dsimp only
  refine ⟨hl1, hl2, hg, hw, hsp, hf, hhp1, hhp2, ha1, ha2, hi1, hi2, hs1, hs2, hk1, hk2,
    Or.inl rfl, ?_, fun hc => absurd hc (by simp)⟩
  rcases hj with rfl | rfl | rfl <;> simp

lemma Inv.adventure (u : UserRecord) (hI : Inv u) (c ri gp gg : ℤ) (hc : c ≤ u.fatigue)
    (hri0 : 0 ≤ ri) (hri2 : u.level + ri ≤ 99) (hgp : 0 ≤ gp) (hgg : 0 ≤ gg) :
    Inv { u with level := u.level + ri, gold := u.gold + gg,
                 stat_points := u.stat_points + gp, fatigue := u.fatigue - c,
                 pending := none } := by
  obtain ⟨hl1, hl2, hg, hw, hsp, hf, hhp1, hhp2, ha1, ha2, hi1, hi2, hs1, hs2, hk1, hk2,
    hpd, hjd, hpj⟩ := hI
  unfold Inv
  dsimp only
  exact ⟨by omega, hri2, by omega, hw, by omega, by omega, hhp1, hhp2, ha1, ha2, hi1, hi2,
    hs1, hs2, hk1, hk2, by tauto, hjd, by simp⟩

lemma Inv.allocHp (u : UserRecord) (hI : Inv u) (amt : ℤ) (h1 : 1 ≤ amt)
    (h2 : amt ≤ u.stat_points) :
    Inv { u with hp := clamp (u.hp + amt) 1 HP_CAP,
                 stat_points := u.stat_points - (clamp (u.hp + amt) 1 HP_CAP - u.hp),
                 pending := none } := by
  obtain ⟨hl1, hl2, hg, hw, hsp, hf, hhp1, hhp2, ha1, ha2, hi1, hi2, hs1, hs2, hk1, hk2,
    hpd, hjd, hpj⟩ := hI
  have hcap : HP_CAP = 999 := rfl
  obtain ⟨b1, b2, b3, b4⟩ := clamp_stat_bounds u.hp amt HP_CAP (by omega) (by omega) h1
  unfold Inv
  dsimp only
  refine ⟨hl1, hl2, hg, hw, by omega, hf, ?a1, ?a2, ?a3, ?a4, ?a5, ?a6, ?a7, ?a8, ?a9, ?a10,
    Or.inl rfl, hjd, by simp⟩
  all_goals omega

lemma Inv.allocAtk (u : UserRecord) (hI : Inv u) (amt : ℤ) (h1 : 1 ≤ amt)
    (h2 : amt ≤ u.stat_points) :
    Inv { u with atk := clamp (u.atk + amt) 1 ATK_CAP,
                 stat_points := u.stat_points - (clamp (u.atk + amt) 1 ATK_CAP - u.atk),
                 pending := none } := by
  obtain ⟨hl1, hl2, hg, hw, hsp, hf, hhp1, hhp2, ha1, ha2, hi1, hi2, hs1, hs2, hk1, hk2,
    hpd, hjd, hpj⟩ := hI
  have hcap : ATK_CAP = 99 := rfl
  obtain ⟨b1, b2, b3, b4⟩ := clamp_stat_bounds u.atk amt ATK_CAP (by omega) (by omega) h1
  unfold Inv
  dsimp only
  refine ⟨hl1, hl2, hg, hw, by omega, hf, ?a1, ?a2, ?a3, ?a4, ?a5, ?a6, ?a7, ?a8, ?a9, ?a10,
    Or.inl rfl, hjd, by simp⟩
  all_goals omega

lemma Inv.allocIntStat (u : UserRecord) (hI : Inv u) (amt : ℤ) (h1 : 1 ≤ amt)
    (h2 : amt ≤ u.stat_points) :
    Inv { u with int_stat := clamp (u.int_stat + amt) 1 INT_CAP,
                 stat_points := u.stat_points - (clamp (u.int_stat + amt) 1 INT_CAP - u.int_stat),
                 pending := none } := by
  obtain ⟨hl1, hl2, hg, hw, hsp, hf, hhp1, hhp2, ha1, ha2, hi1, hi2, hs1, hs2, hk1, hk2,
    hpd, hjd, hpj⟩ := hI
  have hcap : INT_CAP = 99 := rfl
  obtain ⟨b1, b2, b3, b4⟩ := clamp_stat_bounds u.int_stat amt INT_CAP (by omega) (by omega) h1
  unfold Inv
  dsimp only
  refine ⟨hl1, hl2, hg, hw, by omega, hf, ?a1, ?a2, ?a3, ?a4, ?a5, ?a6, ?a7, ?a8, ?a9, ?a10,
    Or.inl rfl, hjd, by simp⟩
  all_goals omega

lemma Inv.allocSpd (u : UserRecord) (hI : Inv u) (amt : ℤ) (h1 : 1 ≤ amt)
    (h2 : amt ≤ u.stat_points) :
    Inv { u with spd := clamp (u.spd + amt) 1 SPD_CAP,
                 stat_points := u.stat_points - (clamp (u.spd + amt) 1 SPD_CAP - u.spd),
                 pending := none } := by
  obtain ⟨hl1, hl2, hg, hw, hsp, hf, hhp1, hhp2, ha1, ha2, hi1, hi2, hs1, hs2, hk1, hk2,
    hpd, hjd, hpj⟩ := hI
  have hcap : SPD_CAP = 99 := rfl
  obtain ⟨b1, b2, b3, b4⟩ := clamp_stat_bounds u.spd amt SPD_CAP (by omega) (by omega) h1
  unfold Inv
  dsimp only
  refine ⟨hl1, hl2, hg, hw, by omega, hf, ?a1, ?a2, ?a3, ?a4, ?a5, ?a6, ?a7, ?a8, ?a9, ?a10,
    Or.inl rfl, hjd, by simp⟩
  all_goals omega

lemma Inv.allocLuk (u : UserRecord) (hI : Inv u) (amt : ℤ) (h1 : 1 ≤ amt)
    (h2 : amt ≤ u.stat_points) :
    Inv { u with luk := clamp (u.luk + amt) 1 LUK_CAP,
                 stat_points := u.stat_points - (clamp (u.luk + amt) 1 LUK_CAP - u.luk),
                 pending := none } := by
  obtain ⟨hl1, hl2, hg, hw, hsp, hf, hhp1, hhp2, ha1, ha2, hi1, hi2, hs1, hs2, hk1, hk2,
    hpd, hjd, hpj⟩ := hI
  have hcap : LUK_CAP = 999 := rfl
  obtain ⟨b1, b2, b3, b4⟩ := clamp_stat_bounds u.luk amt LUK_CAP (by omega) (by omega) h1
  unfold Inv
  dsimp only
  refine ⟨hl1, hl2, hg, hw, by omega, hf, ?a1, ?a2, ?a3, ?a4, ?a5, ?a6, ?a7, ?a8, ?a9, ?a10,
    Or.inl rfl, hjd, by simp⟩
  all_goals omega

lemma repromptStep_fst (u : UserRecord) : (repromptStep u).1 = u := by
  unfold repromptStep
  split_ifs <;> rfl

lemma inv_global (u : UserRecord) (msg today : String) (rnd : Rand) (p : UserRecord × Response)
    (hI : Inv u) (h : globalStep? u msg today rnd = some p) : Inv p.1 := by
  delta globalStep? at h
  by_cases h1 : msg ∈ helpTokens
  · rw [if_pos h1] at h
    injection h with h
    subst h
    exact hI
  rw [if_neg h1] at h
  by_cases h2 : msg ∈ cancelTokens
  · rw [if_pos h2] at h
    injection h with h
    subst h
    exact Inv.setPending u hI none (Or.inl rfl)
  rw [if_neg h2] at h
  by_cases h3 : msg ∈ infoTokens
  · rw [if_pos h3] at h
    injection h with h
    subst h
    exact hI
  rw [if_neg h3] at h
  by_cases h4 : msg ∈ statViewTokens
  · rw [if_pos h4] at h
    injection h with h
    subst h
    exact hI
  rw [if_neg h4] at h
  by_cases h5 : msg ∈ statUseTokens
  · rw [if_pos h5] at h
    by_cases h5a : u.stat_points ≤ 0
    · rw [if_pos h5a] at h
      injection h with h
      subst h
      exact hI
    · rw [if_neg h5a] at h
      injection h with h
      subst h
      exact Inv.setPending u hI (some "STAT_ALLOC") (Or.inr (Or.inl rfl))
  rw [if_neg h5] at h
  by_cases h6 : msg ∈ attendTokens
  · rw [if_pos h6] at h
    by_cases h6a : u.last_attendance = some today
    · rw [if_pos h6a] at h
      injection h with h
      subst h
      exact hI
    · rw [if_neg h6a] at h
      injection h with h
      subst h
      exact Inv.attend u hI today
  rw [if_neg h6] at h
  by_cases h7 : msg ∈ enhanceTokens
  · rw [if_pos h7] at h
    dsimp only at h
    by_cases h7a : u.gold < 50 + u.weapon_level * 25
    · rw [if_pos h7a] at h
      injection h with h
      subst h
      exact hI
    · rw [if_neg h7a] at h
      by_cases h7b : rnd.enhRoll ≤ max 10 (70 - u.weapon_level * 10)
      · rw [if_pos h7b] at h
        injection h with h
        subst h
        exact Inv.goldWeapon u hI _ _ (by omega) (by have := hI.2.2.2.1; omega)
      · rw [if_neg h7b] at h
        injection h with h
        subst h
        exact Inv.goldWeapon u hI _ _ (by omega) hI.2.2.2.1
  rw [if_neg h7] at h
  by_cases h8 : msg ∈ jobTokens
  · rw [if_pos h8] at h
    by_cases h8a : u.job ≠ none
    · rw [if_pos h8a] at h
      injection h with h
      subst h
      exact hI
    · rw [if_neg h8a] at h
      injection h with h
      subst h
      exact Inv.jobRequest u hI (by simpa using h8a)
  rw [if_neg h8] at h
  by_cases h9 : msg ∈ advTokens
  · rw [if_pos h9] at h
    injection h with h
    subst h
    exact Inv.setPending u hI (some "ADVENTURE_SELECT") (Or.inr (Or.inr rfl))
  rw [if_neg h9] at h
  exact absurd h (by simp)

lemma inv_cont (u : UserRecord) (msg : String) (rnd : Rand) (p : UserRecord × Response)
    (hI : Inv u) (hR : ValidRand rnd) (h : contStep? u msg rnd = some p) : Inv p.1 := by
  obtain ⟨hr1, hr2, he1, he2, hdraws, hlen, hq1, hq2⟩ := hR
  delta contStep? at h
  by_cases c1 : u.pending = some "JOB_SELECT"
  · rw [if_pos c1] at h
    by_cases c2 : u.job ≠ none
    · rw [if_pos c2] at h
      injection h with h
      subst h
      exact Inv.setPending u hI none (Or.inl rfl)
    rw [if_neg c2] at h
    by_cases c3 : strStarts msg "직업 "
    · rw [if_pos c3] at h
      dsimp only at h
      by_cases c4 : jobMapping (pyStrip (splitRest msg)) = none
      · rw [if_pos c4] at h
        injection h with h
        subst h
        exact hI
      · rw [if_neg c4] at h
        injection h with h
        subst h
        refine Inv.setJob u hI _ ?_
        rcases jobMapping_cases (pyStrip (splitRest msg)) with hc | hc | hc | hc
        · exact absurd hc c4
        · exact Or.inl hc
        · exact Or.inr (Or.inl hc)
        · exact Or.inr (Or.inr hc)
    · rw [if_neg c3] at h
      exact absurd h (by simp)
  rw [if_neg c1] at h
  by_cases c5 : u.pending = some "STAT_ALLOC"
  · rw [if_pos c5] at h
    dsimp only at h
    by_cases c6 : (pySplit (pyUpper msg)).length = 2 ∧
        (pySplit (pyUpper msg)).getD 0 "" ∈ ["HP", "ATK", "INT", "SPD", "LUK"]
    · rw [if_pos c6] at h
      by_cases c7 : (pyInt? ((pySplit (pyUpper msg)).getD 1 "")).getD (-1) ≤ 0
      · rw [if_pos c7] at h
        injection h with h
        subst h
        exact hI
      rw [if_neg c7] at h
      by_cases c8 : (pyInt? ((pySplit (pyUpper msg)).getD 1 "")).getD (-1) > u.stat_points
      · rw [if_pos c8] at h
        injection h with h
        subst h
        exact hI
      rw [if_neg c8] at h
      by_cases c9 : (pySplit (pyUpper msg)).getD 0 "" = "HP"
      · rw [if_pos c9] at h
        injection h with h
        subst h
        exact Inv.allocHp u hI _ (by omega) (by omega)
      rw [if_neg c9] at h
      by_cases c10 : (pySplit (pyUpper msg)).getD 0 "" = "ATK"
      · rw [if_pos c10] at h
        injection h with h
        subst h
        exact Inv.allocAtk u hI _ (by omega) (by omega)
      rw [if_neg c10] at h
      by_cases c11 : (pySplit (pyUpper msg)).getD 0 "" = "INT"
      · rw [if_pos c11] at h
        injection h with h
        subst h
        exact Inv.allocIntStat u hI _ (by omega) (by omega)
      rw [if_neg c11] at h
      by_cases c12 : (pySplit (pyUpper msg)).getD 0 "" = "SPD"
      · rw [if_pos c12] at h
        injection h with h
        subst h
        exact Inv.allocSpd u hI _ (by omega) (by omega)
      rw [if_neg c12] at h
      by_cases c13 : (pySplit (pyUpper msg)).getD 0 "" = "LUK"
      · rw [if_pos c13] at h
        injection h with h
        subst h
        exact Inv.allocLuk u hI _ (by omega) (by omega)
      rw [if_neg c13] at h
      exact absurd h (by simp)
    · rw [if_neg c6] at h
      exact absurd h (by simp)
  rw [if_neg c5] at h
  by_cases c14 : u.pending = some "ADVENTURE_SELECT"
  · rw [if_pos c14] at h
    by_cases c15 : strStarts msg "모험 "
    · rw [if_pos c15] at h
      dsimp only at h
      by_cases c16 : pyStrip (splitRest msg) ∉ (["쉬움", "보통", "어려움"] : List String)
      · rw [if_pos c16] at h
        injection h with h
        subst h
        exact hI
      rw [if_neg c16] at h
      by_cases c17 : u.fatigue < fatigue_cost (pyStrip (splitRest msg))
      · rw [if_pos c17] at h
        injection h with h
        subst h
        exact hI
      rw [if_neg c17] at h
      have hlur := level_up_rolls_cases (pyStrip (splitRest msg)) u.luk rnd.r
      have hLC : LEVEL_CAP = (99 : ℤ) := rfl
      have hl2 := hI.2.1
      have hbase : (0 : ℤ) ≤
          (if pyStrip (splitRest msg) = "쉬움" then 10
           else if pyStrip (splitRest msg) = "보통" then 20 else (35 : ℤ)) := by
        split_ifs <;> omega
      by_cases c18 : level_up_rolls (pyStrip (splitRest msg)) u.luk rnd.r > 0
      · simp only [if_pos c18] at h
        have hsum := take_sum_nonneg rnd.pointDraws
          ((min (level_up_rolls (pyStrip (splitRest msg)) u.luk rnd.r)
            (LEVEL_CAP - u.level)).toNat) hdraws
        injection h with h
        subst h
        exact Inv.adventure u hI _ _ _ _ (by omega) (by omega) (by omega) (by omega)
          (by omega)
      · simp only [if_neg c18] at h
        injection h with h
        subst h
        exact Inv.adventure u hI _ 0 0 _ (by omega) (by omega) (by omega) (by omega)
          (by omega)
    · rw [if_neg c15] at h
      exact absurd h (by simp)
  rw [if_neg c14] at h
  exact absurd h (by simp)

lemma dispatch_global (u : UserRecord) (msg today : String) (rnd : Rand)
    (p : UserRecord × Response) (h : globalStep? u msg today rnd = some p) :
    dispatch u msg today rnd = p := by
  unfold dispatch
  rw [h]

lemma dispatch_cont (u : UserRecord) (msg today : String) (rnd : Rand)
    (p : UserRecord × Response) (hg : globalStep? u msg today rnd = none)
    (hc : contStep? u msg rnd = some p) : dispatch u msg today rnd = p := by
  unfold dispatch
  rw [hg, hc]

lemma dispatch_fallthrough (u : UserRecord) (msg today : String) (rnd : Rand)
    (hg : globalStep? u msg today rnd = none) (hc : contStep? u msg rnd = none) :
    dispatch u msg today rnd = repromptStep u := by
  unfold dispatch
  rw [hg, hc]

lemma inv_step (u : UserRecord) (utter today : String) (rnd : Rand)
    (hI : Inv u) (hR : ValidRand rnd) : Inv (webhook u utter today rnd).1 := by
  unfold webhook
  rcases hG : globalStep? u (pyStrip utter) today rnd with _ | p
  · rcases hC : contStep? u (pyStrip utter) rnd with _ | q
    · rw [dispatch_fallthrough u (pyStrip utter) today rnd hG hC, repromptStep_fst]
      exact hI
    · rw [dispatch_cont u (pyStrip utter) today rnd q hG hC]
      exact inv_cont u (pyStrip utter) rnd q hI hR hC
  · rw [dispatch_global u (pyStrip utter) today rnd p hG]
    exact inv_global u (pyStrip utter) today rnd p hI hG

lemma global_job (u : UserRecord) (msg today : String) (rnd : Rand)
    (p : UserRecord × Response) (h : globalStep? u msg today rnd = some p) :
    p.1.job = u.job := by
  delta globalStep? at h
  by_cases h1 : msg ∈ helpTokens
  · rw [if_pos h1] at h
    injection h with h
    subst h
    rfl
  rw [if_neg h1] at h
  by_cases h2 : msg ∈ cancelTokens
  · rw [if_pos h2] at h
    injection h with h
    subst h
    rfl
  rw [if_neg h2] at h
  by_cases h3 : msg ∈ infoTokens
  · rw [if_pos h3] at h
    injection h with h
    subst h
    rfl
  rw [if_neg h3] at h
  by_cases h4 : msg ∈ statViewTokens
  · rw [if_pos h4] at h
    injection h with h
    subst h
    rfl
  rw [if_neg h4] at h
  by_cases h5 : msg ∈ statUseTokens
  · rw [if_pos h5] at h
    by_cases h5a : u.stat_points ≤ 0
    · rw [if_pos h5a] at h
      injection h with h
      subst h
      rfl
    · rw [if_neg h5a] at h
      injection h with h
      subst h
      rfl
  rw [if_neg h5] at h
  by_cases h6 : msg ∈ attendTokens
  · rw [if_pos h6] at h
    by_cases h6a : u.last_attendance = some today
    · rw [if_pos h6a] at h
      injection h with h
      subst h
      rfl
    · rw [if_neg h6a] at h
      injection h with h
      subst h
      rfl
  rw [if_neg h6] at h
  by_cases h7 : msg ∈ enhanceTokens
  · rw [if_pos h7] at h
    dsimp only at h
    by_cases h7a : u.gold < 50 + u.weapon_level * 25
    · rw [if_pos h7a] at h
      injection h with h
      subst h
      rfl
    · rw [if_neg h7a] at h
      by_cases h7b : rnd.enhRoll ≤ max 10 (70 - u.weapon_level * 10)
      · rw [if_pos h7b] at h
        injection h with h
        subst h
        rfl
      · rw [if_neg h7b] at h
        injection h with h
        subst h
        rfl
  rw [if_neg h7] at h
  by_cases h8 : msg ∈ jobTokens
  · rw [if_pos h8] at h
    by_cases h8a : u.job ≠ none
    · rw [if_pos h8a] at h
      injection h with h
      subst h
      rfl
    · rw [if_neg h8a] at h
      injection h with h
      subst h
      rfl
  rw [if_neg h8] at h
  by_cases h9 : msg ∈ advTokens
  · rw [if_pos h9] at h
    injection h with h
    subst h
    rfl
  rw [if_neg h9] at h
  exact absurd h (by simp)

lemma cont_job (u : UserRecord) (msg : String) (rnd : Rand)
    (p : UserRecord × Response) (hj : u.job ≠ none) (h : contStep? u msg rnd = some p) :
    p.1.job = u.job := by
  delta contStep? at h
  by_cases c1 : u.pending = some "JOB_SELECT"
  · rw [if_pos c1, if_pos hj] at h
    injection h with h
    subst h
    rfl
  rw [if_neg c1] at h
  by_cases c5 : u.pending = some "STAT_ALLOC"
  · rw [if_pos c5] at h
    dsimp only at h
    by_cases c6 : (pySplit (pyUpper msg)).length = 2 ∧
        (pySplit (pyUpper msg)).getD 0 "" ∈ ["HP", "ATK", "INT", "SPD", "LUK"]
    · rw [if_pos c6] at h
      by_cases c7 : (pyInt? ((pySplit (pyUpper msg)).getD 1 "")).getD (-1) ≤ 0
      · rw [if_pos c7] at h
        injection h with h
        subst h
        rfl
      rw [if_neg c7] at h
      by_cases c8 : (pyInt? ((pySplit (pyUpper msg)).getD 1 "")).getD (-1) > u.stat_points
      · rw [if_pos c8] at h
        injection h with h
        subst h
        rfl
      rw [if_neg c8] at h
      by_cases c9 : (pySplit (pyUpper msg)).getD 0 "" = "HP"
      · rw [if_pos c9] at h
        injection h with h
        subst h
        rfl
      rw [if_neg c9] at h
      by_cases c10 : (pySplit (pyUpper msg)).getD 0 "" = "ATK"
      · rw [if_pos c10] at h
        injection h with h
        subst h
        rfl
      rw [if_neg c10] at h
      by_cases c11 : (pySplit (pyUpper msg)).getD 0 "" = "INT"
      · rw [if_pos c11] at h
        injection h with h
        subst h
        rfl
      rw [if_neg c11] at h
      by_cases c12 : (pySplit (pyUpper msg)).getD 0 "" = "SPD"
      · rw [if_pos c12] at h
        injection h with h
        subst h
        rfl
      rw [if_neg c12] at h
      by_cases c13 : (pySplit (pyUpper msg)).getD 0 "" = "LUK"
      · rw [if_pos c13] at h
        injection h with h
        subst h
        rfl
      rw [if_neg c13] at h
      exact absurd h (by simp)
    · rw [if_neg c6] at h
      exact absurd h (by simp)
  rw [if_neg c5] at h
  by_cases c14 : u.pending = some "ADVENTURE_SELECT"
  · rw [if_pos c14] at h
    by_cases c15 : strStarts msg "모험 "
    · rw [if_pos c15] at h
      dsimp only at h
      by_cases c16 : pyStrip (splitRest msg) ∉ (["쉬움", "보통", "어려움"] : List String)
      · rw [if_pos c16] at h
        injection h with h
        subst h
        rfl
      rw [if_neg c16] at h
      by_cases c17 : u.fatigue < fatigue_cost (pyStrip (splitRest msg))
      · rw [if_pos c17] at h
        injection h with h
        subst h
        rfl
      rw [if_neg c17] at h
      injection h with h
      subst h
      rfl
    · rw [if_neg c15] at h
      exact absurd h (by simp)
  rw [if_neg c14] at h
  exact absurd h (by simp)

lemma webhook_job_preserved (u : UserRecord) (utter today : String) (rnd : Rand)
    (hj : u.job ≠ none) : (webhook u utter today rnd).1.job = u.job := by
  unfold webhook
  rcases hG : globalStep? u (pyStrip utter) today rnd with _ | p
  · rcases hC : contStep? u (pyStrip utter) rnd with _ | q
    · rw [dispatch_fallthrough u (pyStrip utter) today rnd hG hC, repromptStep_fst]
    · rw [dispatch_cont u (pyStrip utter) today rnd q hG hC]
      exact cont_job u (pyStrip utter) rnd q hj hC
  · rw [dispatch_global u (pyStrip utter) today rnd p hG]
    exact global_job u (pyStrip utter) today rnd p hG

lemma globalStep?_jobRequest_blocked (u : UserRecord) (msg today : String) (rnd : Rand)
    (hmem : msg ∈ jobTokens) (hj : u.job ≠ none) :
    globalStep? u msg today rnd = some (u, .jobAlreadySet) := by
  have hcase : msg = "/직업" ∨ msg = "직업" := by simpa [jobTokens] using hmem
  rcases hcase with rfl | rfl <;>
  · delta globalStep?
    rw [if_neg (by decide), if_neg (by decide), if_neg (by decide), if_neg (by decide),
        if_neg (by decide), if_neg (by decide), if_neg (by decide), if_pos (by decide),
        if_pos hj]

lemma inv_reachable (u : UserRecord) (hu : Reachable u) : Inv u := by
  induction hu with
  | init =>
    unfold Inv
    decide
  | step utter today rnd _ hR ih => exact inv_step _ utter today rnd ih hR

/-- C1: every record reachable from the new-user defaults by webhook
requests keeps its level in [1, 99], every stat within its cap, its stat
points and gold nonnegative, its pending state one of the four values, and
its job — once set — unchanged by every further request; in particular a
job-selection request arriving when the job is set returns the rejection
reply and leaves the record untouched. -/
theorem reachable_record_invariants (u : UserRecord) (hu : Reachable u) :
    (1 ≤ u.level ∧ u.level ≤ 99) ∧
    (u.hp ≤ 999 ∧ u.atk ≤ 99 ∧ u.int_stat ≤ 99 ∧ u.spd ≤ 99 ∧ u.luk ≤ 999) ∧
    0 ≤ u.stat_points ∧ 0 ≤ u.gold ∧
    (u.pending = none ∨ u.pending = some "JOB_SELECT" ∨ u.pending = some "STAT_ALLOC" ∨
      u.pending = some "ADVENTURE_SELECT") ∧
    (∀ utter today : String, ∀ rnd : Rand, ∀ j : String, u.job = some j →
      (webhook u utter today rnd).1.job = some j ∧
      (pyStrip utter ∈ jobTokens → webhook u utter today rnd = (u, .jobAlreadySet))) := by
  obtain ⟨hl1, hl2, hg, hw, hsp, hf, hhp1, hhp2, ha1, ha2, hi1, hi2, hs1, hs2, hk1, hk2,
    hpd, hjd, hpj⟩ := inv_reachable u hu
  refine ⟨⟨hl1, hl2⟩, ⟨hhp2, ha2, hi2, hs2, hk2⟩, hsp, hg, hpd, ?_⟩
  intro utter today rnd j hj
  have hjn : u.job ≠ none := by simp [hj]
  constructor
  · rw [webhook_job_preserved u utter today rnd hjn]
    exact hj
  · intro hmem
    unfold webhook
    exact dispatch_global u (pyStrip utter) today rnd _
      (globalStep?_jobRequest_blocked u (pyStrip utter) today rnd hmem hjn)

/-- Witness for C1 at the default record, which is reachable by
construction. -/
theorem reachable_record_invariants_witness :
    (1 ≤ defaultUser.level ∧ defaultUser.level ≤ 99) ∧
    (defaultUser.hp ≤ 999 ∧ defaultUser.atk ≤ 99 ∧ defaultUser.int_stat ≤ 99 ∧
      defaultUser.spd ≤ 99 ∧ defaultUser.luk ≤ 999) ∧
    0 ≤ defaultUser.stat_points ∧ 0 ≤ defaultUser.gold ∧
    (defaultUser.pending = none ∨ defaultUser.pending = some "JOB_SELECT" ∨
      defaultUser.pending = some "STAT_ALLOC" ∨
      defaultUser.pending = some "ADVENTURE_SELECT") ∧
    (∀ utter today : String, ∀ rnd : Rand, ∀ j : String, defaultUser.job = some j →
      (webhook defaultUser utter today rnd).1.job = some j ∧
      (pyStrip utter ∈ jobTokens →
        webhook defaultUser utter today rnd = (defaultUser, .jobAlreadySet))) :=
  reachable_record_invariants defaultUser Reachable.init

/-- C3: for every luk and every single draw r, the source's
level_up_rolls computes exactly the cumulative-threshold function of the
specification at each difficulty: easy gains 1 iff r < 0.30+bonus; normal
checks r < 0.10+bonus for +2 first, then r < (0.10+bonus)+(0.40+bonus) for
+1; hard checks r < 0.30+bonus for +2 first, then
r < (0.30+bonus)+(0.70+bonus) for +1. -/
theorem level_up_rolls_matches_spec (d : Difficulty) (luk : ℤ) (r : ℚ) :
    level_up_rolls (diffToken d) luk r = levelUpRollSpec d luk r := by
  cases d <;> rfl

lemma globalStep?_enhance (u : UserRecord) (msg today : String) (rnd : Rand)
    (hmem : msg ∈ enhanceTokens) :
    globalStep? u msg today rnd =
      (if u.gold < 50 + u.weapon_level * 25 then
        some (u, .enhanceNoGold (50 + u.weapon_level * 25) u.gold)
       else if rnd.enhRoll ≤ max 10 (70 - u.weapon_level * 10) then
        some ({ u with gold := u.gold - (50 + u.weapon_level * 25),
                       weapon_level := u.weapon_level + 1 },
              .enhanceSuccess (u.weapon_level + 1) (max 10 (70 - u.weapon_level * 10))
                (50 + u.weapon_level * 25) (u.gold - (50 + u.weapon_level * 25)))
       else
        some ({ u with gold := u.gold - (50 + u.weapon_level * 25) },
              .enhanceFail (max 10 (70 - u.weapon_level * 10)) (50 + u.weapon_level * 25)
                (u.gold - (50 + u.weapon_level * 25)))) := by
  have hcase : msg = "/강화" ∨ msg = "강화" := by simpa [enhanceTokens] using hmem
  rcases hcase with rfl | rfl <;>
  · delta globalStep?
    rw [if_neg (by decide), if_neg (by decide), if_neg (by decide), if_neg (by decide),
        if_neg (by decide), if_neg (by decide), if_pos (by decide)]

/-- C7: the enhance command charges cost = 50 + 25·weaponLevel; with
insufficient gold it replies and mutates nothing; otherwise gold drops by
exactly the cost in both outcomes of the [1,100] roll against
successRate = max(10, 70 − 10·weaponLevel), and weaponLevel rises by
exactly one precisely when the roll is at most the success rate. -/
theorem enhance_spec (u : UserRecord) (utter today : String) (rnd : Rand)
    (hmsg : pyStrip utter ∈ enhanceTokens) :
    (u.gold < 50 + u.weapon_level * 25 →
      webhook u utter today rnd = (u, .enhanceNoGold (50 + u.weapon_level * 25) u.gold)) ∧
    (¬ u.gold < 50 + u.weapon_level * 25 →
      (rnd.enhRoll ≤ max 10 (70 - u.weapon_level * 10) →
        webhook u utter today rnd =
          ({ u with gold := u.gold - (50 + u.weapon_level * 25),
                    weapon_level := u.weapon_level + 1 },
           .enhanceSuccess (u.weapon_level + 1) (max 10 (70 - u.weapon_level * 10))
             (50 + u.weapon_level * 25) (u.gold - (50 + u.weapon_level * 25)))) ∧
      (¬ rnd.enhRoll ≤ max 10 (70 - u.weapon_level * 10) →
        webhook u utter today rnd =
          ({ u with gold := u.gold - (50 + u.weapon_level * 25) },
           .enhanceFail (max 10 (70 - u.weapon_level * 10)) (50 + u.weapon_level * 25)
             (u.gold - (50 + u.weapon_level * 25))))) := by
  have hg := globalStep?_enhance u (pyStrip utter) today rnd hmsg
  refine ⟨fun hlow => ?_, fun hok => ⟨fun hroll => ?_, fun hroll => ?_⟩⟩
  · rw [if_pos hlow] at hg
    exact dispatch_global u (pyStrip utter) today rnd _ hg
  · rw [if_neg hok, if_pos hroll] at hg
    exact dispatch_global u (pyStrip utter) today rnd _ hg
  · rw [if_neg hok, if_neg hroll] at hg
    exact dispatch_global u (pyStrip utter) today rnd _ hg

/-- Witness for C7 on a concrete record with enough gold and a winning
roll. -/
theorem enhance_spec_witness :
    pyStrip "강화" ∈ enhanceTokens ∧
    ¬ (defaultUser.gold < 50 + defaultUser.weapon_level * 25) ∧
    ({ r := 0, enhRoll := 7, pointDraws := [1, 1], goldRoll := 0 } : Rand).enhRoll ≤
      max 10 (70 - defaultUser.weapon_level * 10) ∧
    webhook defaultUser "강화" "2026-01-01"
        { r := 0, enhRoll := 7, pointDraws := [1, 1], goldRoll := 0 } =
      ({ defaultUser with gold := defaultUser.gold - (50 + defaultUser.weapon_level * 25),
                          weapon_level := defaultUser.weapon_level + 1 },
       .enhanceSuccess (defaultUser.weapon_level + 1)
         (max 10 (70 - defaultUser.weapon_level * 10)) (50 + defaultUser.weapon_level * 25)
         (defaultUser.gold - (50 + defaultUser.weapon_level * 25))) :=
  ⟨by decide, by decide, by decide,
    ((enhance_spec defaultUser "강화" "2026-01-01"
      { r := 0, enhRoll := 7, pointDraws := [1, 1], goldRoll := 0 }
      (by decide)).2 (by decide)).1 (by decide)⟩

lemma globalStep?_attend (u : UserRecord) (msg today : String) (rnd : Rand)
    (hmem : msg ∈ attendTokens) :
    globalStep? u msg today rnd =
      (if u.last_attendance = some today then some (u, .attendanceAlready)
       else
        some ({ u with fatigue := u.fatigue + 30, last_attendance := some today },
              .attendanceDone (u.fatigue + 30))) := by
  have hcase : msg = "/출석" ∨ msg = "출석" ∨ msg = "출석체크" ∨ msg = "출석 체크" := by
    simpa [attendTokens] using hmem
  rcases hcase with rfl | rfl | rfl | rfl <;>
  · delta globalStep?
    rw [if_neg (by decide), if_neg (by decide), if_neg (by decide), if_neg (by decide),
        if_neg (by decide), if_pos (by decide)]

/-- C8: attendance is idempotent within one calendar day: when the stored
date already equals today it replies already-claimed and mutates nothing,
otherwise it adds exactly 30 fatigue and stores today; hence a second call
the same day changes nothing, and a call on a different later day grants
another +30. -/
theorem attendance_idempotent (u : UserRecord) (utter today today2 : String)
    (rnd rnd2 rnd3 : Rand) (hmsg : pyStrip utter ∈ attendTokens) :
    (u.last_attendance = some today → webhook u utter today rnd = (u, .attendanceAlready)) ∧
    (u.last_attendance ≠ some today →
      webhook u utter today rnd =
        ({ u with fatigue := u.fatigue + 30, last_attendance := some today },
         .attendanceDone (u.fatigue + 30))) ∧
    (webhook (webhook u utter today rnd).1 utter today rnd2).1 =
      (webhook u utter today rnd).1 ∧
    (today2 ≠ today →
      (webhook (webhook u utter today rnd).1 utter today2 rnd3).1.fatigue =
        (webhook u utter today rnd).1.fatigue + 30) := by
  have step : ∀ (v : UserRecord) (t : String) (rd : Rand),
      webhook v utter t rd =
        (if v.last_attendance = some t then (v, .attendanceAlready)
         else ({ v with fatigue := v.fatigue + 30, last_attendance := some t },
               .attendanceDone (v.fatigue + 30))) := by
    intro v t rd
    have hg := globalStep?_attend v (pyStrip utter) t rd hmsg
    by_cases hA : v.last_attendance = some t
    · rw [if_pos hA] at hg ⊢
      exact dispatch_global v (pyStrip utter) t rd _ hg
    · rw [if_neg hA] at hg ⊢
      exact dispatch_global v (pyStrip utter) t rd _ hg
  have hfirst : (webhook u utter today rnd).1.last_attendance = some today := by
    rw [step u today rnd]
    by_cases hA : u.last_attendance = some today
    · rw [if_pos hA]
      exact hA
    · rw [if_neg hA]
  refine ⟨fun hA => by rw [step u today rnd, if_pos hA],
          fun hA => by rw [step u today rnd, if_neg hA], ?_, fun hne => ?_⟩
  · rw [step (webhook u utter today rnd).1 today rnd2, if_pos hfirst]
  · have hne2 : (webhook u utter today rnd).1.last_attendance ≠ some today2 := by
      rw [hfirst]
      intro hcc
      exact hne (by injection hcc with hcc; exact hcc.symm)
    rw [step (webhook u utter today rnd).1 today2 rnd3, if_neg hne2]

/-- Witness for C8 on the default record (no attendance recorded yet). -/
theorem attendance_idempotent_witness :
    pyStrip "출석" ∈ attendTokens ∧
    defaultUser.last_attendance ≠ some "2026-01-01" ∧
    webhook defaultUser "출석" "2026-01-01"
        { r := 0, enhRoll := 1, pointDraws := [1, 1], goldRoll := 0 } =
      ({ defaultUser with fatigue := defaultUser.fatigue + 30,
                          last_attendance := some "2026-01-01" },
       .attendanceDone (defaultUser.fatigue + 30)) ∧
    ("2026-01-02" : String) ≠ "2026-01-01" ∧
    (webhook (webhook defaultUser "출석" "2026-01-01"
        { r := 0, enhRoll := 1, pointDraws := [1, 1], goldRoll := 0 }).1 "출석" "2026-01-02"
        { r := 0, enhRoll := 1, pointDraws := [1, 1], goldRoll := 0 }).1.fatigue =
      (webhook defaultUser "출석" "2026-01-01"
        { r := 0, enhRoll := 1, pointDraws := [1, 1], goldRoll := 0 }).1.fatigue + 30 := by
  refine ⟨by decide, by decide, ?_, by decide, ?_⟩
  · exact (attendance_idempotent defaultUser "출석" "2026-01-01" "2026-01-02"
      { r := 0, enhRoll := 1, pointDraws := [1, 1], goldRoll := 0 }
      { r := 0, enhRoll := 1, pointDraws := [1, 1], goldRoll := 0 }
      { r := 0, enhRoll := 1, pointDraws := [1, 1], goldRoll := 0 }
      (by decide)).2.1 (by decide)
  · exact (attendance_idempotent defaultUser "출석" "2026-01-01" "2026-01-02"
      { r := 0, enhRoll := 1, pointDraws := [1, 1], goldRoll := 0 }
      { r := 0, enhRoll := 1, pointDraws := [1, 1], goldRoll := 0 }
      { r := 0, enhRoll := 1, pointDraws := [1, 1], goldRoll := 0 }
      (by decide)).2.2.2 (by decide)

lemma globalStep?_advRequest (u : UserRecord) (msg today : String) (rnd : Rand)
    (hmem : msg ∈ advTokens) :
    globalStep? u msg today rnd =
      some ({ u with pending := some "ADVENTURE_SELECT" }, .adventurePrompt) := by
  have hcase : msg = "/모험" ∨ msg = "모험" := by simpa [advTokens] using hmem
  rcases hcase with rfl | rfl <;>
  · delta globalStep?
    rw [if_neg (by decide), if_neg (by decide), if_neg (by decide), if_neg (by decide),
        if_neg (by decide), if_neg (by decide), if_neg (by decide), if_neg (by decide),
        if_pos (by decide)]

/-- C5: with pending ADVENTURE_SELECT, a continuation naming a valid
difficulty whose fatigue cost exceeds the stored fatigue replies with the
fatigue-insufficient message, mutates nothing, and keeps pending at
ADVENTURE_SELECT; and the adventure-request command itself sets pending to
ADVENTURE_SELECT on any record with no fatigue pre-check. -/
theorem adventure_fatigue_insufficient (u : UserRecord) (utter today : String) (rnd : Rand)
    (d : String) (hd : d ∈ (["쉬움", "보통", "어려움"] : List String))
    (hpend : u.pending = some "ADVENTURE_SELECT")
    (hutter : pyStrip utter = "모험 " ++ d)
    (hfat : u.fatigue < fatigue_cost d) :
    webhook u utter today rnd = (u, .advNoFatigue (fatigue_cost d) u.fatigue) ∧
    (webhook u utter today rnd).1.pending = some "ADVENTURE_SELECT" ∧
    (∀ v : UserRecord, ∀ utter2 today2 : String, ∀ rnd2 : Rand,
      pyStrip utter2 ∈ advTokens →
      webhook v utter2 today2 rnd2 =
        ({ v with pending := some "ADVENTURE_SELECT" }, .adventurePrompt)) := by
  have hd3 : d = "쉬움" ∨ d = "보통" ∨ d = "어려움" := by simpa using hd
  have hmain : webhook u utter today rnd = (u, .advNoFatigue (fatigue_cost d) u.fatigue) := by
    have hnone : globalStep? u (pyStrip utter) today rnd = none := by
      rw [hutter]
      rcases hd3 with rfl | rfl | rfl <;> exact globalStep?_eq_none _ _ _ _ (by decide)
    have hcont : contStep? u (pyStrip utter) rnd =
        some (u, .advNoFatigue (fatigue_cost d) u.fatigue) := by
      rw [hutter]
      delta contStep?
      rw [hpend]
      rcases hd3 with rfl | rfl | rfl <;>
      · rw [if_neg (by decide), if_neg (by decide), if_pos (by decide), if_pos (by decide)]
        dsimp only
        first
          | rw [show pyStrip (splitRest ("모험 " ++ "쉬움")) = "쉬움" from by decide]
          | rw [show pyStrip (splitRest ("모험 " ++ "보통")) = "보통" from by decide]
          | rw [show pyStrip (splitRest ("모험 " ++ "어려움")) = "어려움" from by decide]
        rw [if_neg (by decide), if_pos hfat]
    unfold webhook
    exact dispatch_cont u (pyStrip utter) today rnd _ hnone hcont
  refine ⟨hmain, by rw [hmain]; exact hpend, ?_⟩
  intro v utter2 today2 rnd2 hmem
  unfold webhook
  exact dispatch_global v (pyStrip utter2) today2 rnd2 _
    (globalStep?_advRequest v (pyStrip utter2) today2 rnd2 hmem)

/-- Witness for C5: pending adventure selection with zero fatigue and the
easy continuation. -/
theorem adventure_fatigue_insufficient_witness :
    ("쉬움" : String) ∈ (["쉬움", "보통", "어려움"] : List String) ∧
    ({ defaultUser with pending := some "ADVENTURE_SELECT" } : UserRecord).pending =
      some "ADVENTURE_SELECT" ∧
    pyStrip "모험 쉬움" = "모험 " ++ "쉬움" ∧
    ({ defaultUser with pending := some "ADVENTURE_SELECT" } : UserRecord).fatigue <
      fatigue_cost "쉬움" ∧
    webhook { defaultUser with pending := some "ADVENTURE_SELECT" } "모험 쉬움" "2026-01-01"
        { r := 0, enhRoll := 1, pointDraws := [1, 1], goldRoll := 0 } =
      ({ defaultUser with pending := some "ADVENTURE_SELECT" },
       .advNoFatigue (fatigue_cost "쉬움")
         ({ defaultUser with pending := some "ADVENTURE_SELECT" } : UserRecord).fatigue) :=
  ⟨by decide, by decide, by decide, by decide,
    (adventure_fatigue_insufficient { defaultUser with pending := some "ADVENTURE_SELECT" }
      "모험 쉬움" "2026-01-01" { r := 0, enhRoll := 1, pointDraws := [1, 1], goldRoll := 0 }
      "쉬움" (by decide) (by decide) (by decide) (by decide)).1⟩

/-- C4: with pending ADVENTURE_SELECT, a valid-difficulty continuation
with sufficient fatigue performs, in one combined record update that also
clears pending: fatigue minus the difficulty cost; level plus the level-up
roll clamped so the level never exceeds 99; stat points plus the sum of
one draw from [1,10] per level actually granted; and gold plus the
difficulty base (10/20/35) plus one draw from [0,5]. -/
theorem adventure_success_resolution (u : UserRecord) (utter today : String) (rnd : Rand)
    (d : String) (hd : d ∈ (["쉬움", "보통", "어려움"] : List String))
    (hpend : u.pending = some "ADVENTURE_SELECT")
    (hutter : pyStrip utter = "모험 " ++ d)
    (hlev : u.level ≤ 99)
    (hfat : ¬ u.fatigue < fatigue_cost d)
    (hR : ValidRand rnd) :
    (let inc := level_up_rolls d u.luk rnd.r
     let realInc := if inc > 0 then min inc (LEVEL_CAP - u.level) else 0
     let gained := if inc > 0 then (rnd.pointDraws.take realInc.toNat).sum else 0
     let base : ℤ := if d = "쉬움" then 10 else if d = "보통" then 20 else 35
     webhook u utter today rnd =
       ({ u with level := u.level + realInc, gold := u.gold + (base + rnd.goldRoll),
                 stat_points := u.stat_points + gained,
                 fatigue := u.fatigue - fatigue_cost d, pending := none },
        .advDone d (fatigue_cost d) (u.fatigue - fatigue_cost d) (base + rnd.goldRoll)
          (u.gold + (base + rnd.goldRoll)) realInc (u.level + realInc) gained
          (u.stat_points + gained)) ∧
     u.level + realInc ≤ 99 ∧ 0 ≤ realInc ∧
     (∀ x ∈ rnd.pointDraws.take realInc.toNat, 1 ≤ x ∧ x ≤ 10) ∧
     0 ≤ rnd.goldRoll ∧ rnd.goldRoll ≤ 5) := by
  obtain ⟨hr1, hr2, he1, he2, hdraws, hlen, hq1, hq2⟩ := hR
  have hd3 : d = "쉬움" ∨ d = "보통" ∨ d = "어려움" := by simpa using hd
  have hlur := level_up_rolls_cases d u.luk rnd.r
  have hLC : LEVEL_CAP = (99 : ℤ) := rfl
  have hmain : webhook u utter today rnd =
      ({ u with
          level := u.level +
            (if level_up_rolls d u.luk rnd.r > 0 then
              min (level_up_rolls d u.luk rnd.r) (LEVEL_CAP - u.level) else 0),
          gold := u.gold +
            ((if d = "쉬움" then 10 else if d = "보통" then 20 else 35) + rnd.goldRoll),
          stat_points := u.stat_points +
            (if level_up_rolls d u.luk rnd.r > 0 then
              (rnd.pointDraws.take
                (if level_up_rolls d u.luk rnd.r > 0 then
                  min (level_up_rolls d u.luk rnd.r) (LEVEL_CAP - u.level) else 0).toNat).sum
             else 0),
          fatigue := u.fatigue - fatigue_cost d, pending := none },
       .advDone d (fatigue_cost d) (u.fatigue - fatigue_cost d)
         ((if d = "쉬움" then 10 else if d = "보통" then 20 else 35) + rnd.goldRoll)
         (u.gold + ((if d = "쉬움" then 10 else if d = "보통" then 20 else 35) + rnd.goldRoll))
         (if level_up_rolls d u.luk rnd.r > 0 then
           min (level_up_rolls d u.luk rnd.r) (LEVEL_CAP - u.level) else 0)
         (u.level +
           (if level_up_rolls d u.luk rnd.r > 0 then
             min (level_up_rolls d u.luk rnd.r) (LEVEL_CAP - u.level) else 0))
         (if level_up_rolls d u.luk rnd.r > 0 then
           (rnd.pointDraws.take
             (if level_up_rolls d u.luk rnd.r > 0 then
               min (level_up_rolls d u.luk rnd.r) (LEVEL_CAP - u.level) else 0).toNat).sum
          else 0)
         (u.stat_points +
           (if level_up_rolls d u.luk rnd.r > 0 then
             (rnd.pointDraws.take
               (if level_up_rolls d u.luk rnd.r > 0 then
                 min (level_up_rolls d u.luk rnd.r) (LEVEL_CAP - u.level) else 0).toNat).sum
            else 0))) := by
    have hnone : globalStep? u (pyStrip utter) today rnd = none := by
      rw [hutter]
      rcases hd3 with rfl | rfl | rfl <;> exact globalStep?_eq_none _ _ _ _ (by decide)
    unfold webhook
    refine dispatch_cont u (pyStrip utter) today rnd _ hnone ?_
    rw [hutter]
    delta contStep?
    rw [hpend]
    rcases hd3 with rfl | rfl | rfl <;>
    · rw [if_neg (by decide), if_neg (by decide), if_pos (by decide), if_pos (by decide)]
      dsimp only
      first
        | rw [show pyStrip (splitRest ("모험 " ++ "쉬움")) = "쉬움" from by decide]
        | rw [show pyStrip (splitRest ("모험 " ++ "보통")) = "보통" from by decide]
        | rw [show pyStrip (splitRest ("모험 " ++ "어려움")) = "어려움" from by decide]
      rw [if_neg (by decide), if_neg hfat]
  refine ⟨hmain, ?_, ?_, ?_, hq1, hq2⟩
  · split_ifs <;> omega
  · split_ifs <;> omega
  · intro x hx
    exact hdraws x (List.take_subset _ _ hx)

/-- Witness for C4: easy adventure from fatigue 5 with r = 0 (guaranteed
+1 level), stat-point draws [3,4] and gold bonus 2. -/
theorem adventure_success_resolution_witness :
    ("쉬움" : String) ∈ (["쉬움", "보통", "어려움"] : List String) ∧
    ({ defaultUser with pending := some "ADVENTURE_SELECT", fatigue := 5 } :
        UserRecord).pending = some "ADVENTURE_SELECT" ∧
    pyStrip "모험 쉬움" = "모험 " ++ "쉬움" ∧
    ({ defaultUser with pending := some "ADVENTURE_SELECT", fatigue := 5 } :
        UserRecord).level ≤ 99 ∧
    ¬ ({ defaultUser with pending := some "ADVENTURE_SELECT", fatigue := 5 } :
        UserRecord).fatigue < fatigue_cost "쉬움" ∧
    ValidRand { r := 0, enhRoll := 1, pointDraws := [3, 4], goldRoll := 2 } ∧
    webhook { defaultUser with pending := some "ADVENTURE_SELECT", fatigue := 5 }
        "모험 쉬움" "2026-01-01" { r := 0, enhRoll := 1, pointDraws := [3, 4], goldRoll := 2 } =
      ({ defaultUser with level := 2, gold := 112, stat_points := 3, fatigue := 4,
                          pending := none },
       .advDone "쉬움" 1 4 12 112 1 2 3 3) :=
  ⟨by decide, by decide, by decide, by decide, by decide, by decide,
    ((adventure_success_resolution
      { defaultUser with pending := some "ADVENTURE_SELECT", fatigue := 5 }
      "모험 쉬움" "2026-01-01" { r := 0, enhRoll := 1, pointDraws := [3, 4], goldRoll := 2 }
      "쉬움" (by decide) (by decide) (by decide) (by decide) (by decide) (by decide)).1).trans
      (by norm_num [level_up_rolls, defaultUser, LEVEL_CAP, fatigue_cost])⟩

lemma global_not_stat_shape : ∀ g ∈ globalTokens, (pySplit (pyUpper g)).length = 2 →
    (pySplit (pyUpper g)).getD 0 "" ∉ (["HP", "ATK", "INT", "SPD", "LUK"] : List String) := by
  decide

lemma statshape_not_global (utter stat amtStr : String)
    (hparts : pySplit (pyUpper (pyStrip utter)) = [stat, amtStr])
    (hstat : stat ∈ (["HP", "ATK", "INT", "SPD", "LUK"] : List String)) :
    pyStrip utter ∉ globalTokens := by
  intro hmem
  have h2 := global_not_stat_shape (pyStrip utter) hmem (by rw [hparts]; rfl)
  rw [hparts] at h2
  exact h2 hstat

lemma contStep?_statAlloc (u : UserRecord) (msg : String) (rnd : Rand)
    (stat amtStr : String) (amount : ℤ)
    (hpend : u.pending = some "STAT_ALLOC")
    (hparts : pySplit (pyUpper msg) = [stat, amtStr])
    (hstat : stat ∈ (["HP", "ATK", "INT", "SPD", "LUK"] : List String))
    (hamt : pyInt? amtStr = some amount) :
    contStep? u msg rnd =
      (if amount ≤ 0 then some (u, .statAmountTooSmall)
       else if amount > u.stat_points then some (u, .statNotEnough u.stat_points)
       else
        some ({ setStatVal u stat (clamp (statVal u stat + amount) 1 (statCap stat)) with
                  stat_points := u.stat_points -
                    (clamp (statVal u stat + amount) 1 (statCap stat) - statVal u stat),
                  pending := none },
              .statApplied stat
                (clamp (statVal u stat + amount) 1 (statCap stat) - statVal u stat)
                (clamp (statVal u stat + amount) 1 (statCap stat))
                (u.stat_points -
                  (clamp (statVal u stat + amount) 1 (statCap stat) - statVal u stat)))) := by
  delta contStep?
  rw [hpend]
  rw [if_neg (by decide), if_pos (by decide)]
  dsimp only
  rw [hparts]
  rw [if_pos (show ([stat, amtStr] : List String).length = 2 ∧
      ([stat, amtStr] : List String).getD 0 "" ∈ (["HP", "ATK", "INT", "SPD", "LUK"] : List String)
      from ⟨rfl, by simpa using hstat⟩)]
  rw [show (([stat, amtStr] : List String).getD 1 "") = amtStr from rfl,
      show (([stat, amtStr] : List String).getD 0 "") = stat from rfl,
      hamt, Option.getD_some]
  have h5 : stat = "HP" ∨ stat = "ATK" ∨ stat = "INT" ∨ stat = "SPD" ∨ stat = "LUK" := by
    simpa using hstat
  by_cases hA : amount ≤ 0
  · rw [if_pos hA, if_pos hA]
  rw [if_neg hA, if_neg hA]
  by_cases hB : amount > u.stat_points
  · rw [if_pos hB, if_pos hB]
  rw [if_neg hB, if_neg hB]
  rcases h5 with rfl | rfl | rfl | rfl | rfl
  · rw [if_pos rfl]
    rfl
  · rw [if_neg (by decide), if_pos rfl]
    rfl
  · rw [if_neg (by decide), if_neg (by decide), if_pos rfl]
    rfl
  · rw [if_neg (by decide), if_neg (by decide), if_neg (by decide), if_pos rfl]
    rfl
  · rw [if_neg (by decide), if_neg (by decide), if_neg (by decide), if_neg (by decide),
        if_pos rfl]
    rfl

/-- C6: with pending STAT_ALLOC, a continuation of shape "STAT amount":
nonpositive amounts and amounts above the available points are rejected
without mutation; otherwise the stat becomes clamp(current+amount, 1, cap),
exactly used = newValue − current = min(amount, cap − current) points are
charged, and pending is cleared. -/
theorem stat_allocation_spec (u : UserRecord) (utter today : String) (rnd : Rand)
    (stat amtStr : String) (amount : ℤ)
    (hpend : u.pending = some "STAT_ALLOC")
    (hparts : pySplit (pyUpper (pyStrip utter)) = [stat, amtStr])
    (hstat : stat ∈ (["HP", "ATK", "INT", "SPD", "LUK"] : List String))
    (hamt : pyInt? amtStr = some amount)
    (hcur1 : 1 ≤ statVal u stat) (hcur2 : statVal u stat ≤ statCap stat) :
    (amount ≤ 0 → webhook u utter today rnd = (u, .statAmountTooSmall)) ∧
    (¬ amount ≤ 0 → amount > u.stat_points →
      webhook u utter today rnd = (u, .statNotEnough u.stat_points)) ∧
    (¬ amount ≤ 0 → ¬ amount > u.stat_points →
      webhook u utter today rnd =
        ({ setStatVal u stat (clamp (statVal u stat + amount) 1 (statCap stat)) with
            stat_points := u.stat_points -
              (clamp (statVal u stat + amount) 1 (statCap stat) - statVal u stat),
            pending := none },
         .statApplied stat
           (clamp (statVal u stat + amount) 1 (statCap stat) - statVal u stat)
           (clamp (statVal u stat + amount) 1 (statCap stat))
           (u.stat_points -
             (clamp (statVal u stat + amount) 1 (statCap stat) - statVal u stat))) ∧
      clamp (statVal u stat + amount) 1 (statCap stat) - statVal u stat =
        min amount (statCap stat - statVal u stat)) := by
  have hnone := globalStep?_eq_none u (pyStrip utter) today rnd
    (statshape_not_global utter stat amtStr hparts hstat)
  have hcont := contStep?_statAlloc u (pyStrip utter) rnd stat amtStr amount hpend hparts
    hstat hamt
  refine ⟨fun hA => ?_, fun hA hB => ?_, fun hA hB => ⟨?_, ?_⟩⟩
  · rw [if_pos hA] at hcont
    unfold webhook
    exact dispatch_cont u (pyStrip utter) today rnd _ hnone hcont
  · rw [if_neg hA, if_pos hB] at hcont
    unfold webhook
    exact dispatch_cont u (pyStrip utter) today rnd _ hnone hcont
  · rw [if_neg hA, if_neg hB] at hcont
    unfold webhook
    exact dispatch_cont u (pyStrip utter) today rnd _ hnone hcont
  · rw [clamp_eq_min (statVal u stat + amount) 1 (statCap stat) (by omega)]
    omega

/-- Witness for C6: allocating 2 points into ATK out of 5 available. -/
theorem stat_allocation_spec_witness :
    ({ defaultUser with pending := some "STAT_ALLOC", stat_points := 5 } :
        UserRecord).pending = some "STAT_ALLOC" ∧
    pySplit (pyUpper (pyStrip "ATK 2")) = ["ATK", "2"] ∧
    ("ATK" : String) ∈ (["HP", "ATK", "INT", "SPD", "LUK"] : List String) ∧
    pyInt? "2" = some 2 ∧
    ¬ (2 : ℤ) ≤ 0 ∧
    ¬ (2 : ℤ) > ({ defaultUser with pending := some "STAT_ALLOC", stat_points := 5 } :
        UserRecord).stat_points ∧
    webhook { defaultUser with pending := some "STAT_ALLOC", stat_points := 5 } "ATK 2"
        "2026-01-01" { r := 0, enhRoll := 1, pointDraws := [1, 1], goldRoll := 0 } =
      ({ defaultUser with atk := 3, stat_points := 3, pending := none },
       .statApplied "ATK" 2 3 3) :=
  ⟨by decide, by decide, by decide, by decide, by decide, by decide,
    (((stat_allocation_spec { defaultUser with pending := some "STAT_ALLOC", stat_points := 5 }
      "ATK 2" "2026-01-01" { r := 0, enhRoll := 1, pointDraws := [1, 1], goldRoll := 0 }
      "ATK" "2" 2 (by decide) (by decide) (by decide) (by decide) (by decide)
      (by decide)).2.2 (by decide) (by decide)).1).trans (by decide)⟩

/-- C10: with pending STAT_ALLOC and the target stat already at its cap, a
well-formed allocation with 1 ≤ amount ≤ statPoints is accepted as a
success: zero points are used, the stat and the stat points are unchanged,
yet pending is cleared and a +0 success reply is returned. -/
theorem stat_alloc_at_cap_consumes_pending (u : UserRecord) (utter today : String)
    (rnd : Rand) (stat amtStr : String) (amount : ℤ)
    (hpend : u.pending = some "STAT_ALLOC")
    (hparts : pySplit (pyUpper (pyStrip utter)) = [stat, amtStr])
    (hstat : stat ∈ (["HP", "ATK", "INT", "SPD", "LUK"] : List String))
    (hamt : pyInt? amtStr = some amount)
    (hcap : statVal u stat = statCap stat)
    (h1 : 1 ≤ amount) (h2 : amount ≤ u.stat_points) :
    webhook u utter today rnd =
      ({ u with pending := none }, .statApplied stat 0 (statCap stat) u.stat_points) := by
  have hnone := globalStep?_eq_none u (pyStrip utter) today rnd
    (statshape_not_global utter stat amtStr hparts hstat)
  have hcont := contStep?_statAlloc u (pyStrip utter) rnd stat amtStr amount hpend hparts
    hstat hamt
  rw [if_neg (by omega), if_neg (by omega)] at hcont
  have hmain : webhook u utter today rnd =
      ({ setStatVal u stat (clamp (statVal u stat + amount) 1 (statCap stat)) with
          stat_points := u.stat_points -
            (clamp (statVal u stat + amount) 1 (statCap stat) - statVal u stat),
          pending := none },
       .statApplied stat
         (clamp (statVal u stat + amount) 1 (statCap stat) - statVal u stat)
         (clamp (statVal u stat + amount) 1 (statCap stat))
         (u.stat_points -
           (clamp (statVal u stat + amount) 1 (statCap stat) - statVal u stat))) := by
    unfold webhook
    exact dispatch_cont u (pyStrip utter) today rnd _ hnone hcont
  have h5 : stat = "HP" ∨ stat = "ATK" ∨ stat = "INT" ∨ stat = "SPD" ∨ stat = "LUK" := by
    simpa using hstat
  rcases h5 with rfl | rfl | rfl | rfl | rfl
  · have hy : statCap "HP" = (999 : ℤ) := rfl
    have hcl : clamp (statVal u "HP" + amount) 1 (statCap "HP") = statCap "HP" := by
      unfold clamp
      split_ifs <;> omega
    rw [hmain, hcl, ← hcap]
    simp [setStatVal, statVal, sub_self]
  · have hy : statCap "ATK" = (99 : ℤ) := rfl
    have hcl : clamp (statVal u "ATK" + amount) 1 (statCap "ATK") = statCap "ATK" := by
      unfold clamp
      split_ifs <;> omega
    rw [hmain, hcl, ← hcap]
    simp [setStatVal, statVal, sub_self]
  · have hy : statCap "INT" = (99 : ℤ) := rfl
    have hcl : clamp (statVal u "INT" + amount) 1 (statCap "INT") = statCap "INT" := by
      unfold clamp
      split_ifs <;> omega
    rw [hmain, hcl, ← hcap]
    simp [setStatVal, statVal, sub_self]
  · have hy : statCap "SPD" = (99 : ℤ) := rfl
    have hcl : clamp (statVal u "SPD" + amount) 1 (statCap "SPD") = statCap "SPD" := by
      unfold clamp
      split_ifs <;> omega
    rw [hmain, hcl, ← hcap]
    simp [setStatVal, statVal, sub_self]
  · have hy : statCap "LUK" = (999 : ℤ) := rfl
    have hcl : clamp (statVal u "LUK" + amount) 1 (statCap "LUK") = statCap "LUK" := by
      unfold clamp
      split_ifs <;> omega
    rw [hmain, hcl, ← hcap]
    simp [setStatVal, statVal, sub_self]

/-- Witness for C10: LUK already at its cap 999, allocating 3 of 7 points. -/
theorem stat_alloc_at_cap_witness :
    ({ defaultUser with pending := some "STAT_ALLOC", stat_points := 7, luk := 999 } :
        UserRecord).pending = some "STAT_ALLOC" ∧
    pySplit (pyUpper (pyStrip "LUK 3")) = ["LUK", "3"] ∧
    ("LUK" : String) ∈ (["HP", "ATK", "INT", "SPD", "LUK"] : List String) ∧
    pyInt? "3" = some 3 ∧
    statVal { defaultUser with pending := some "STAT_ALLOC", stat_points := 7, luk := 999 }
      "LUK" = statCap "LUK" ∧
    (1 : ℤ) ≤ 3 ∧
    (3 : ℤ) ≤
      ({ defaultUser with
          pending := some "STAT_ALLOC", stat_points := 7, luk := 999 } :
        UserRecord).stat_points ∧
    webhook { defaultUser with pending := some "STAT_ALLOC", stat_points := 7, luk := 999 }
        "LUK 3" "2026-01-01" { r := 0, enhRoll := 1, pointDraws := [1, 1], goldRoll := 0 } =
      ({ defaultUser with stat_points := 7, luk := 999, pending := none },
       .statApplied "LUK" 0 (statCap "LUK")
         ({ defaultUser with pending := some "STAT_ALLOC", stat_points := 7, luk := 999 } :
           UserRecord).stat_points) :=
  ⟨by decide, by decide, by decide, by decide, by decide, by decide, by decide,
    (stat_alloc_at_cap_consumes_pending
      { defaultUser with pending := some "STAT_ALLOC", stat_points := 7, luk := 999 }
      "LUK 3" "2026-01-01" { r := 0, enhRoll := 1, pointDraws := [1, 1], goldRoll := 0 }
      "LUK" "3" 3 (by decide) (by decide) (by decide) (by decide) (by decide) (by decide)
      (by decide)).trans (by decide)⟩

/-- C9: with a pending continuation and an utterance that matches no
global command and falls past the continuation parser (contStep? returns
none, the source's fall-through into its guidance section), the handler
returns the re-prompt of that pending kind and leaves every stored field,
pending included, unchanged. -/
theorem pending_mismatch_reprompt (u : UserRecord) (utter today : String) (rnd : Rand)
    (hpend3 : u.pending = some "JOB_SELECT" ∨ u.pending = some "STAT_ALLOC" ∨
      u.pending = some "ADVENTURE_SELECT")
    (hng : pyStrip utter ∉ globalTokens)
    (hcf : contStep? u (pyStrip utter) rnd = none) :
    webhook u utter today rnd =
      (u, if u.pending = some "ADVENTURE_SELECT" then .advReprompt
          else if u.pending = some "JOB_SELECT" then .jobReprompt else .statReprompt) := by
  unfold webhook
  rw [dispatch_fallthrough u (pyStrip utter) today rnd
    (globalStep?_eq_none u (pyStrip utter) today rnd hng) hcf]
  unfold repromptStep
  rcases hpend3 with hp | hp | hp <;> rw [hp] <;> rfl

/-- Witness for C9: pending adventure selection and an unrelated
utterance. -/
theorem pending_mismatch_reprompt_witness :
    (({ defaultUser with pending := some "ADVENTURE_SELECT" } : UserRecord).pending =
        some "JOB_SELECT" ∨
      ({ defaultUser with pending := some "ADVENTURE_SELECT" } : UserRecord).pending =
        some "STAT_ALLOC" ∨
      ({ defaultUser with pending := some "ADVENTURE_SELECT" } : UserRecord).pending =
        some "ADVENTURE_SELECT") ∧
    pyStrip "안녕" ∉ globalTokens ∧
    contStep? { defaultUser with pending := some "ADVENTURE_SELECT" } (pyStrip "안녕")
      { r := 0, enhRoll := 1, pointDraws := [1, 1], goldRoll := 0 } = none ∧
    webhook { defaultUser with pending := some "ADVENTURE_SELECT" } "안녕" "2026-01-01"
        { r := 0, enhRoll := 1, pointDraws := [1, 1], goldRoll := 0 } =
      ({ defaultUser with pending := some "ADVENTURE_SELECT" }, .advReprompt) :=
  ⟨by decide, by decide, by decide,
    (pending_mismatch_reprompt { defaultUser with pending := some "ADVENTURE_SELECT" }
      "안녕" "2026-01-01" { r := 0, enhRoll := 1, pointDraws := [1, 1], goldRoll := 0 }
      (by decide) (by decide) (by decide)).trans (by decide)⟩

/-- C2: an utterance equal to one of the global command tokens is handled
by the global chain for every value of pending (the handler is reached and
produces its result no matter what continuation is stored), and the
continuation/re-prompt logic runs exactly when no global token matched. -/
theorem global_commands_precede_pending (u : UserRecord) (utter today : String)
    (rnd : Rand) :
    ((globalStep? u (pyStrip utter) today rnd).isSome ↔ pyStrip utter ∈ globalTokens) ∧
    (pyStrip utter ∈ globalTokens → ∀ p : Option String,
      ∃ res : UserRecord × Response,
        globalStep? { u with pending := p } (pyStrip utter) today rnd = some res ∧
        webhook { u with pending := p } utter today rnd = res) ∧
    (pyStrip utter ∉ globalTokens →
      webhook u utter today rnd =
        (match contStep? u (pyStrip utter) rnd with
         | some res => res
         | none => repromptStep u)) := by
  refine ⟨⟨fun hs => ?_, fun hmem => ?_⟩, fun hmem p => ?_, fun hng => ?_⟩
  · by_contra hng
    rw [globalStep?_eq_none u (pyStrip utter) today rnd hng] at hs
    exact Bool.noConfusion hs
  · exact Option.isSome_iff_ne_none.mpr
      (globalStep?_ne_none u (pyStrip utter) today rnd hmem)
  · obtain ⟨res, hres⟩ := Option.ne_none_iff_exists'.mp
      (globalStep?_ne_none { u with pending := p } (pyStrip utter) today rnd hmem)
    exact ⟨res, hres, by
      unfold webhook
      exact dispatch_global { u with pending := p } (pyStrip utter) today rnd res hres⟩
  · unfold webhook
    unfold dispatch
    rw [globalStep?_eq_none u (pyStrip utter) today rnd hng]

end KakaoIdle
